import Mathlib

/-!
Verification of the guardrail content-moderation service
(`src/guardrail_service.py` and `src/api.py`).

The embedding mirrors the Python code shallowly:
- provider response dictionaries become structures of `Option` fields
  (`none` models an absent key or a JSON `null` value);
- the remote Bedrock client is a parameter: a call's outcome is passed in
  as `Except BedrockError GuardrailResponse`, `Except.error` modelling a
  raised exception caught by the service's `try/except` blocks;
- the result dictionaries (`check_content`, `chat_with_ai`) become
  structures whose optional fields are `none` exactly when the Python
  code leaves the corresponding key out of the dict.
-/

/-- An exception raised by the boto3 client: `str(e)` and `type(e).__name__`. -/
structure BedrockError where
  message : String
  errorType : String
deriving DecidableEq, Repr

/-- One entry of `contentPolicy.filters`: keys `action`, `type`, `confidence`. -/
structure ContentFilter where
  action : Option String
  type : Option String
  confidence : Option String
deriving DecidableEq, Repr

/-- The `contentPolicy` sub-section: key `filters`. -/
structure ContentPolicy where
  filters : Option (List ContentFilter)
deriving DecidableEq, Repr

/-- One entry of `sensitiveInformationPolicy.piiEntities`: keys `action`, `type`. -/
structure PiiEntity where
  action : Option String
  type : Option String
deriving DecidableEq, Repr

/-- One entry of `sensitiveInformationPolicy.regexes`: keys `action`, `name`. -/
structure RegexEntry where
  action : Option String
  name : Option String
deriving DecidableEq, Repr

/-- The `sensitiveInformationPolicy` sub-section: keys `piiEntities`, `regexes`. -/
structure SensitiveInformationPolicy where
  piiEntities : Option (List PiiEntity)
  regexes : Option (List RegexEntry)
deriving DecidableEq, Repr

/-- One entry of `wordPolicy.customWords`. The code reads only the `match`
key (field `matchWord` here, since `match` is a Lean keyword); the provider
schema also carries an `action` key on each entry, which the code never
reads, so the field exists in the model but is ignored by the parser. -/
structure WordEntry where
  matchWord : Option String
  action : Option String := none
deriving DecidableEq, Repr

/-- One entry of `wordPolicy.managedWordLists`; the code only counts these
entries, never reading their keys, so the provider keys are modelled but
unused. -/
structure ManagedWordEntry where
  matchWord : Option String := none
  action : Option String := none
deriving DecidableEq, Repr

/-- The `wordPolicy` sub-section: keys `customWords`, `managedWordLists`. -/
structure WordPolicy where
  customWords : Option (List WordEntry)
  managedWordLists : Option (List ManagedWordEntry)
deriving DecidableEq, Repr

/-- One entry of `topicPolicy.topics`: keys `action`, `name`. -/
structure TopicEntry where
  action : Option String
  name : Option String
deriving DecidableEq, Repr

/-- The `topicPolicy` sub-section: key `topics`. -/
structure TopicPolicy where
  topics : Option (List TopicEntry)
deriving DecidableEq, Repr

/-- One assessment record: up to four optional policy sub-sections. -/
structure Assessment where
  contentPolicy : Option ContentPolicy
  sensitiveInformationPolicy : Option SensitiveInformationPolicy
  wordPolicy : Option WordPolicy
  topicPolicy : Option TopicPolicy
deriving DecidableEq, Repr

/-- One entry of the response `outputs` array: key `text`. -/
structure GuardrailOutput where
  text : Option String
deriving DecidableEq, Repr

/-- The `apply_guardrail` response: keys `action`, `assessments`, `outputs`. -/
structure GuardrailResponse where
  action : Option String
  assessments : Option (List Assessment)
  outputs : Option (List GuardrailOutput)
deriving DecidableEq, Repr

/-- Python truthiness test `if action and action != 'NONE'`: an absent key
(`None`) and the empty string are falsy, so an entry contributes only when
its action is a present, non-empty string different from `"NONE"`. -/
def actionTriggers : Option String → Bool
  | none => false
  | some s => s != "" && s != "NONE"

/-- `GuardrailService._parse_assessments` restricted to one assessment:
the body of the `for assessment in assessments` loop, producing this
record's reason strings in source order (content policy, then PII
entities, then regexes, then word policy, then topic policy). -/
def parse_assessment (assessment : Assessment) : List String :=
  let contentReasons :=
    match assessment.contentPolicy with
    | none => []
    | some cp =>
      (cp.filters.getD []).filterMap fun f =>
        if actionTriggers f.action then
          some ("Nội dung " ++ f.type.getD "Unknown" ++ ": " ++ f.action.getD ""
            ++ " (Độ tin cậy: " ++ f.confidence.getD "N/A" ++ ")")
        else none
  let sensitiveReasons :=
    match assessment.sensitiveInformationPolicy with
    | none => []
    | some sp =>
      ((sp.piiEntities.getD []).filterMap fun entity =>
        if actionTriggers entity.action then
          some ("Thông tin nhạy cảm (" ++ entity.type.getD "Unknown" ++ "): "
            ++ entity.action.getD "")
        else none)
      ++ ((sp.regexes.getD []).filterMap fun regex =>
        if actionTriggers regex.action then
          some ("Pattern nhạy cảm (" ++ regex.name.getD "Unknown" ++ "): "
            ++ regex.action.getD "")
        else none)
  let wordReasons :=
    match assessment.wordPolicy with
    | none => []
    | some wp =>
      let custom_words := wp.customWords.getD []
      let customReasons :=
        if custom_words.isEmpty then []
        else
          let matched := (custom_words.take 3).map fun w => w.matchWord.getD ""
          let word_list := String.intercalate ", " matched
          let word_list := if custom_words.length > 3 then word_list ++ "..." else word_list
          ["Từ bị cấm: " ++ word_list]
      let managed_lists := wp.managedWordLists.getD []
      let managedReasons :=
        if managed_lists.isEmpty then []
        else ["Managed word list: " ++ toString managed_lists.length ++ " vi phạm"]
      customReasons ++ managedReasons
  let topicReasons :=
    match assessment.topicPolicy with
    | none => []
    | some tp =>
      (tp.topics.getD []).filterMap fun topic =>
        if actionTriggers topic.action then
          some ("Chủ đề vi phạm: " ++ topic.name.getD "Unknown")
        else none
  contentReasons ++ sensitiveReasons ++ wordReasons ++ topicReasons

/-- `GuardrailService._parse_assessments`: concatenates each assessment's
reasons in input order. -/
def parse_assessments (assessments : List Assessment) : List String :=
  assessments.flatMap parse_assessment

/-- The dict returned by `GuardrailService.check_content`. On the success
path the keys `error` and `error_type` are absent (`none`); on the failure
path `action`, `reasons` and `masked_text` are absent. `masked_text` is
present only when the Python variable is truthy. -/
structure CheckResult where
  success : Bool
  text : String
  action : Option String := none
  reasons : Option (List String) := none
  is_blocked : Bool
  masked_text : Option String := none
  error : Option String := none
  error_type : Option String := none
deriving DecidableEq, Repr

/-- `GuardrailService.check_content`. The remote call's outcome is the
`resp` argument: `Except.ok` is a returned response dict, `Except.error`
an exception caught by the handler. -/
def check_content (text : String) (resp : Except BedrockError GuardrailResponse) :
    CheckResult :=
  match resp with
  | Except.error e =>
    { success := false
      error := some e.message
      error_type := some e.errorType
      text := text
      is_blocked := false }
  | Except.ok response =>
    let action := response.action.getD "UNKNOWN"
    let assessments := response.assessments.getD []
    let outputs := response.outputs.getD []
    let reasons := parse_assessments assessments
    let masked_text : Option String :=
      match outputs with
      | [] => none
      | o :: _ => some (o.text.getD "")
    let is_blocked := action == "BLOCK" || action == "GUARDRAIL_INTERVENED"
    let reasons :=
      if is_blocked && reasons.isEmpty then ["Nội dung vi phạm chính sách guardrail"]
      else if !is_blocked && reasons.isEmpty then ["Nội dung an toàn"]
      else reasons
    { success := true
      text := text
      action := some action
      reasons := some reasons
      is_blocked := is_blocked
      masked_text :=
        match masked_text with
        | some s => if s == "" then none else some s
        | none => none }

/-- The dict returned by `GuardrailService.chat_with_ai`; optional keys are
`none` when the Python code leaves them out of the returned dict. -/
structure ChatResult where
  success : Bool
  message : Option String := none
  reasons : Option (List String) := none
  input_check : Option CheckResult := none
  stop_reason : Option String := none
  user_message : Option String := none
  ai_response : Option String := none
  is_safe : Option Bool := none
  error : Option String := none
  error_type : Option String := none
deriving DecidableEq, Repr

/-- The `bedrock.converse` response, flattened to the two values the code
reads: `stopReason` (via `.get`, so optional) and the generated text at
`output.message.content[0].text` (`none` when any key or index along that
path is missing, in which case the Python lookup raises and the outer
handler turns it into an error payload). -/
structure ConverseResponse where
  stopReason : Option String
  outputText : Option String
deriving DecidableEq, Repr

/-- `GuardrailService.chat_with_ai`. The `check` argument is the outcome of
the `apply_guardrail` call made inside the nested `check_content`; the
`converse` argument is the generative endpoint, invoked at most once. The
second component of the result counts how many times `converse` was
invoked, making the short-circuit observable. -/
def chat_with_ai (message : String) (system_prompt : Option String)
    (check : Except BedrockError GuardrailResponse)
    (converse : Unit → Except BedrockError ConverseResponse) :
    ChatResult × Nat :=
  let _ := system_prompt
  let input_check := check_content message check
  if input_check.is_blocked then
    ({ success := false
       message := some "Tin nhắn của bạn bị chặn vì vi phạm chính sách nội dung"
       reasons := some (input_check.reasons.getD [])
       input_check := some input_check }, 0)
  else
    match converse () with
    | Except.error e =>
      ({ success := false, error := some e.message, error_type := some e.errorType }, 1)
    | Except.ok response =>
      let stop_reason := response.stopReason
      if stop_reason == some "guardrail_intervened" then
        ({ success := false
           message := some "Phản hồi của AI bị chặn vì vi phạm chính sách nội dung"
           reasons := some ["Output vi phạm guardrail"]
           input_check := some input_check
           stop_reason := stop_reason }, 1)
      else
        match response.outputText with
        | none =>
          -- the Python chained lookup raises KeyError/IndexError here,
          -- caught by the outer handler and converted to an error payload
          ({ success := false, error := some "KeyError", error_type := some "KeyError" }, 1)
        | some ai_response =>
          ({ success := true
             user_message := some message
             ai_response := some ai_response
             is_safe := some true
             input_check := some input_check
             stop_reason := stop_reason }, 1)

/-- The `POST /api/batch-check` handler body (`src/api.py`, `batch_check`):
iterates the texts sequentially, collecting one `check_content` result per
text, and returns `count` and `results`. The `oracle` argument gives the
outcome of the i-th remote call. -/
def batch_check (texts : List String)
    (oracle : Nat → Except BedrockError GuardrailResponse) :
    Nat × List CheckResult :=
  let results := texts.enum.map fun p => check_content p.2 (oracle p.1)
  (results.length, results)

/-- C1: for every successful check, the blocked flag is true iff the
provider's verdict action is `"BLOCK"` or `"GUARDRAIL_INTERVENED"`; any
other action value, including an absent one (defaulted to `"UNKNOWN"`),
yields a false blocked flag. -/
theorem c1_blocked_iff_action (text : String) (resp : GuardrailResponse) :
    (check_content text (Except.ok resp)).is_blocked = true ↔
      resp.action = some "BLOCK" ∨ resp.action = some "GUARDRAIL_INTERVENED" := by
  cases h : resp.action with
  | none => simp [check_content, h]
  | some s => simp [check_content, h]

/-- C5: any exception raised by the client inside check_content is caught
and converted into a failure object with success=false, the error message
and kind, the original text, and a false blocked flag (fail-open). -/
theorem c5_fail_open (text : String) (e : BedrockError) :
    check_content text (Except.error e) =
      { success := false
        error := some e.message
        error_type := some e.errorType
        text := text
        is_blocked := false } := rfl

/-- C3: on the success path, whenever the interpreter collected no reasons
the final reason list is the single blocked-default or safe-default string
according to the blocked flag; consequently the reason list of a
successful check is never empty. -/
theorem c3_default_reasons (text : String) (resp : GuardrailResponse) :
    (check_content text (Except.ok resp)).reasons
      = some (if parse_assessments (resp.assessments.getD []) = []
              then if (check_content text (Except.ok resp)).is_blocked
                   then ["Nội dung vi phạm chính sách guardrail"]
                   else ["Nội dung an toàn"]
              else parse_assessments (resp.assessments.getD []))
    ∧ (check_content text (Except.ok resp)).reasons ≠ some [] := by
  cases hb : (resp.action.getD "UNKNOWN" == "BLOCK"
      || resp.action.getD "UNKNOWN" == "GUARDRAIL_INTERVENED") <;>
    cases hraw : parse_assessments (resp.assessments.getD []) <;>
      simp [check_content, hb, hraw]

/-- C4: whenever the input check reports blocked, chat_with_ai returns the
input-blocked failure payload (success=false, the block reasons, the
embedded input CheckResult) and the generative endpoint is invoked zero
times. -/
theorem c4_blocked_short_circuit (msg : String) (sp : Option String)
    (check : Except BedrockError GuardrailResponse)
    (converse : Unit → Except BedrockError ConverseResponse)
    (h : (check_content msg check).is_blocked = true) :
    chat_with_ai msg sp check converse =
      ({ success := false
         message := some "Tin nhắn của bạn bị chặn vì vi phạm chính sách nội dung"
         reasons := some ((check_content msg check).reasons.getD [])
         input_check := some (check_content msg check) }, 0) := by
  simp [chat_with_ai, h]

/-- Witness for C4 at a concrete blocked response. -/
theorem c4_blocked_short_circuit_witness :
    (check_content "hi"
        (Except.ok { action := some "BLOCK", assessments := none, outputs := none })).is_blocked
      = true
    ∧ chat_with_ai "hi" none
        (Except.ok { action := some "BLOCK", assessments := none, outputs := none })
        (fun _ => Except.error { message := "net down", errorType := "EndpointConnectionError" })
      = ({ success := false
           message := some "Tin nhắn của bạn bị chặn vì vi phạm chính sách nội dung"
           reasons := some ["Nội dung vi phạm chính sách guardrail"]
           input_check := some
             { success := true
               text := "hi"
               action := some "BLOCK"
               reasons := some ["Nội dung vi phạm chính sách guardrail"]
               is_blocked := true } }, 0) :=
  ⟨rfl, c4_blocked_short_circuit "hi" none _ _ rfl⟩

/-- String concatenation is associative. -/
theorem string_append_assoc (a b c : String) : a ++ (b ++ c) = a ++ b ++ c := by
  apply String.ext
  simp [String.data_append]

/-- C6: for a word-policy section with a non-empty customWords list, the
emitted reason lists exactly the first min(N,3) matched terms joined by
", ", with the truncation marker "..." appended iff N > 3; a non-empty
managedWordLists separately yields one reason with the count. -/
theorem c6_word_policy_format (ws : List WordEntry) (ml : List ManagedWordEntry)
    (h : ws ≠ []) :
    parse_assessment
      { contentPolicy := none
        sensitiveInformationPolicy := none
        wordPolicy := some { customWords := some ws, managedWordLists := some ml }
        topicPolicy := none } =
      ("Từ bị cấm: "
          ++ String.intercalate ", " ((ws.take 3).map fun w => w.matchWord.getD "")
          ++ (if ws.length > 3 then "..." else ""))
        :: (if ml = [] then []
            else ["Managed word list: " ++ toString ml.length ++ " vi phạm"])
    ∧ ((ws.take 3).map fun w => w.matchWord.getD "").length = min ws.length 3 := by
  constructor
  · rcases Nat.lt_or_ge 3 ws.length with hlt | hge
    · simp [parse_assessment, h, List.isEmpty_iff, hlt, string_append_assoc]
    · simp [parse_assessment, h, List.isEmpty_iff, Nat.not_lt.mpr hge]
  · simp [List.length_take]
    omega

/-- Witness for C6 with five matched words and an empty managed list. -/
theorem c6_word_policy_format_witness :
    ([{ matchWord := some "w1" }, { matchWord := some "w2" }, { matchWord := some "w3" },
      { matchWord := some "w4" }, { matchWord := some "w5" }] : List WordEntry) ≠ []
    ∧ (parse_assessment
        { contentPolicy := none
          sensitiveInformationPolicy := none
          wordPolicy := some
            { customWords := some
                [{ matchWord := some "w1" }, { matchWord := some "w2" },
                 { matchWord := some "w3" }, { matchWord := some "w4" },
                 { matchWord := some "w5" }]
              managedWordLists := some [] }
          topicPolicy := none } = ["Từ bị cấm: w1, w2, w3..."]
      ∧ (3 : Nat) = min 5 3) :=
  ⟨by decide,
   c6_word_policy_format
     [{ matchWord := some "w1" }, { matchWord := some "w2" }, { matchWord := some "w3" },
      { matchWord := some "w4" }, { matchWord := some "w5" }] [] (by decide)⟩

/-- C10: in the content-policy, PII-entity, regex and topic branches, an
entry whose action is absent (None) or the empty string contributes no
reason, exactly like the sentinel "NONE". -/
theorem c10_falsy_action (act : Option String) (h : act = none ∨ act = some "") :
    parse_assessment
      { contentPolicy := some
          { filters := some [{ action := act, type := none, confidence := none }] }
        sensitiveInformationPolicy := some
          { piiEntities := some [{ action := act, type := none }]
            regexes := some [{ action := act, name := none }] }
        wordPolicy := none
        topicPolicy := some { topics := some [{ action := act, name := none }] } }
      = [] := by
  rcases h with h | h <;> subst h <;> rfl

/-- Witness for C10 at an absent action. -/
theorem c10_falsy_action_witness :
    ((none : Option String) = none ∨ (none : Option String) = some "")
    ∧ parse_assessment
        { contentPolicy := some
            { filters := some [{ action := none, type := none, confidence := none }] }
          sensitiveInformationPolicy := some
            { piiEntities := some [{ action := none, type := none }]
              regexes := some [{ action := none, name := none }] }
          wordPolicy := none
          topicPolicy := some { topics := some [{ action := none, name := none }] } }
        = [] :=
  ⟨Or.inl rfl, c10_falsy_action none (Or.inl rfl)⟩

/-- C9: batch-check returns count = N and N results, the i-th being the
check_content result of the i-th input text against the i-th remote-call
outcome, in input order. -/
theorem c9_batch_order (texts : List String)
    (oracle : Nat → Except BedrockError GuardrailResponse) :
    (batch_check texts oracle).1 = texts.length
    ∧ (batch_check texts oracle).2.length = texts.length
    ∧ ∀ i : Nat, (batch_check texts oracle).2[i]? =
        (texts[i]?).map fun t => check_content t (oracle i) := by
  refine ⟨?_, ?_, ?_⟩
  · simp [batch_check]
  · simp [batch_check]
  · intro i
    simp [batch_check, List.getElem?_map, List.getElem?_enum]
    cases texts[i]? <;> simp

/-- C8: the interpreter is a total function over the optional schema; it
returns the empty list on an empty assessment list, and assessments whose
four sub-sections are all absent contribute nothing. -/
theorem c8_interpreter_total (as : List Assessment)
    (h : ∀ a ∈ as, a.contentPolicy = none ∧ a.sensitiveInformationPolicy = none
      ∧ a.wordPolicy = none ∧ a.topicPolicy = none) :
    parse_assessments as = [] ∧ parse_assessments [] = [] := by
  refine ⟨?_, rfl⟩
  induction as with
  | nil => rfl
  | cons a rest ih =>
    obtain ⟨h1, h2, h3, h4⟩ := h a (List.mem_cons_self a rest)
    have hrest : parse_assessments rest = [] :=
      ih fun a' ha' => h a' (List.mem_cons_of_mem _ ha')
    simp [parse_assessments, parse_assessment, h1, h2, h3, h4] at hrest ⊢
    exact hrest

/-- Witness for C8 at a one-element list with all sub-sections absent. -/
theorem c8_interpreter_total_witness :
    (∀ a ∈ [({ contentPolicy := none, sensitiveInformationPolicy := none,
               wordPolicy := none, topicPolicy := none } : Assessment)],
      a.contentPolicy = none ∧ a.sensitiveInformationPolicy = none
        ∧ a.wordPolicy = none ∧ a.topicPolicy = none)
    ∧ (parse_assessments
        [({ contentPolicy := none, sensitiveInformationPolicy := none,
            wordPolicy := none, topicPolicy := none } : Assessment)] = []
      ∧ parse_assessments [] = []) :=
  ⟨by decide,
   c8_interpreter_total
     [{ contentPolicy := none, sensitiveInformationPolicy := none,
        wordPolicy := none, topicPolicy := none }] (by decide)⟩

/-- C2 counterexample: a custom-word entry whose action is the sentinel
"NONE" still contributes a reason, because the word-policy branch never
reads entry actions — it fires on list non-emptiness alone. The claim
predicts an empty reason list here. -/
theorem c2_counterexample :
    parse_assessments
      [{ contentPolicy := none
         sensitiveInformationPolicy := none
         wordPolicy := some
           { customWords := some [{ matchWord := some "foo", action := some "NONE" }]
             managedWordLists := some [] }
         topicPolicy := none }]
      = ["Từ bị cấm: foo"]
    ∧ parse_assessments
      [{ contentPolicy := none
         sensitiveInformationPolicy := none
         wordPolicy := some
           { customWords := some [{ matchWord := some "foo", action := some "NONE" }]
             managedWordLists := some [] }
         topicPolicy := none }]
      ≠ [] := by
  constructor
  · rfl
  · decide

/-- An entry-level action that is "NONE" or absent never triggers. -/
theorem actionTriggers_of_none_or_absent (o : Option String)
    (h : o = some "NONE" ∨ o = none) : actionTriggers o = false := by
  rcases h with rfl | rfl <;> rfl

/-- One assessment contributes nothing when every content-policy, PII,
regex and topic entry's action is "NONE" or absent and the word-policy
lists are empty or absent. -/
theorem parse_assessment_eq_nil (a : Assessment)
    (hc : ∀ cp, a.contentPolicy = some cp →
      ∀ f ∈ cp.filters.getD [], f.action = some "NONE" ∨ f.action = none)
    (hp : ∀ sp, a.sensitiveInformationPolicy = some sp →
      ∀ e ∈ sp.piiEntities.getD [], e.action = some "NONE" ∨ e.action = none)
    (hr : ∀ sp, a.sensitiveInformationPolicy = some sp →
      ∀ r ∈ sp.regexes.getD [], r.action = some "NONE" ∨ r.action = none)
    (hw : ∀ wp, a.wordPolicy = some wp →
      wp.customWords.getD [] = [] ∧ wp.managedWordLists.getD [] = [])
    (ht : ∀ tp, a.topicPolicy = some tp →
      ∀ t ∈ tp.topics.getD [], t.action = some "NONE" ∨ t.action = none) :
    parse_assessment a = [] := by
  simp only [parse_assessment]
  rcases hcp : a.contentPolicy with _ | cp <;>
    rcases hsp : a.sensitiveInformationPolicy with _ | sp <;>
      rcases hwp : a.wordPolicy with _ | wp <;>
        rcases htp : a.topicPolicy with _ | tp <;>
  simp_all [List.filterMap_eq_nil_iff, List.isEmpty_iff, actionTriggers_of_none_or_absent]

/-- C2 amended: for every assessment list in which each content-policy,
PII, regex and topic entry's action is "NONE" or absent (or the
sub-section is absent), and each word-policy section is absent or has
empty customWords and managedWordLists, the interpreter returns the empty
reason list. (The code's word-policy branch fires on list non-emptiness
alone, ignoring entry actions, so word entries must be excluded rather
than required to carry action "NONE".) -/
theorem c2_amended_all_none (as : List Assessment)
    (h : ∀ a ∈ as,
      (∀ cp, a.contentPolicy = some cp →
        ∀ f ∈ cp.filters.getD [], f.action = some "NONE" ∨ f.action = none)
      ∧ (∀ sp, a.sensitiveInformationPolicy = some sp →
          ∀ e ∈ sp.piiEntities.getD [], e.action = some "NONE" ∨ e.action = none)
      ∧ (∀ sp, a.sensitiveInformationPolicy = some sp →
          ∀ r ∈ sp.regexes.getD [], r.action = some "NONE" ∨ r.action = none)
      ∧ (∀ wp, a.wordPolicy = some wp →
          wp.customWords.getD [] = [] ∧ wp.managedWordLists.getD [] = [])
      ∧ (∀ tp, a.topicPolicy = some tp →
          ∀ t ∈ tp.topics.getD [], t.action = some "NONE" ∨ t.action = none)) :
    parse_assessments as = [] := by
  induction as with
  | nil => rfl
  | cons a rest ih =>
    obtain ⟨h1, h2, h3, h4, h5⟩ := h a (List.mem_cons_self a rest)
    have ha : parse_assessment a = [] := parse_assessment_eq_nil a h1 h2 h3 h4 h5
    have hrest : parse_assessments rest = [] :=
      ih fun a' ha' => h a' (List.mem_cons_of_mem _ ha')
    simp only [parse_assessments, List.flatMap_cons, ha, List.nil_append]
    simpa [parse_assessments] using hrest

/-- Witness for the amended C2 at a list with one all-"NONE" assessment. -/
theorem c2_amended_all_none_witness :
    (∀ a ∈ [({ contentPolicy := some { filters := some [{ action := some "NONE", type := some "HATE", confidence := some "HIGH" }] }
               sensitiveInformationPolicy := some
                 { piiEntities := some [{ action := some "NONE", type := some "EMAIL" }]
                   regexes := some [] }
               wordPolicy := none
               topicPolicy := some { topics := some [{ action := none, name := some "T" }] } } : Assessment)],
      (∀ cp, a.contentPolicy = some cp →
        ∀ f ∈ cp.filters.getD [], f.action = some "NONE" ∨ f.action = none)
      ∧ (∀ sp, a.sensitiveInformationPolicy = some sp →
          ∀ e ∈ sp.piiEntities.getD [], e.action = some "NONE" ∨ e.action = none)
      ∧ (∀ sp, a.sensitiveInformationPolicy = some sp →
          ∀ r ∈ sp.regexes.getD [], r.action = some "NONE" ∨ r.action = none)
      ∧ (∀ wp, a.wordPolicy = some wp →
          wp.customWords.getD [] = [] ∧ wp.managedWordLists.getD [] = [])
      ∧ (∀ tp, a.topicPolicy = some tp →
          ∀ t ∈ tp.topics.getD [], t.action = some "NONE" ∨ t.action = none))
    ∧ parse_assessments
        [({ contentPolicy := some { filters := some [{ action := some "NONE", type := some "HATE", confidence := some "HIGH" }] }
            sensitiveInformationPolicy := some
              { piiEntities := some [{ action := some "NONE", type := some "EMAIL" }]
                regexes := some [] }
            wordPolicy := none
            topicPolicy := some { topics := some [{ action := none, name := some "T" }] } } : Assessment)] = [] :=
  ⟨by decide, c2_amended_all_none _ (by decide)⟩

/-- C7 counterexample: the provider returns an output text equal to the
original input, yet the result still carries the masked_text field — the
"differs from the original" comparison in the code only drives a log line,
not the field's presence. The claim predicts an absent field here. -/
theorem c7_counterexample :
    (check_content "hello"
        (Except.ok { action := none, assessments := none,
                     outputs := some [{ text := some "hello" }] })).masked_text
      = some "hello"
    ∧ (check_content "hello"
        (Except.ok { action := none, assessments := none,
                     outputs := some [{ text := some "hello" }] })).text
      = "hello" :=
  ⟨rfl, rfl⟩

/-- C7 amended: on the success path, masked_text is present iff the
provider returned a non-empty outputs array whose first entry carries a
non-empty text (defaulting an absent text key to ""); the field then holds
that text, whether or not it differs from the original input. -/
theorem c7_amended_masked_text (text : String) (resp : GuardrailResponse) :
    (check_content text (Except.ok resp)).masked_text =
      match resp.outputs.getD [] with
      | [] => none
      | o :: _ => if o.text.getD "" == "" then none else some (o.text.getD "") := by
  cases houts : resp.outputs.getD [] with
  | nil => simp [check_content, houts]
  | cons o rest => simp [check_content, houts]
